import Mathlib

/-!
Shallow embedding of `src/app.py` (a Streamlit document question-answering
app) and proofs about its specified behaviour.

Modelling conventions:
* Python string truthiness (`if s:`) is `s ≠ ""`; `if opt:` on an optional
  string is false exactly for `None` and `""`.
* `st.secrets["ANTHROPIC_API_KEY"]` is an `Except String String`: a raised
  exception (e.g. `KeyError`, or no secrets mechanism at all) is `.error msg`,
  a present value is `.ok value`.
* `os.getenv` is an `Option String` (`none` = variable unset).
* A PDF stream handed to `PyPDF2.PdfReader` either raises (`.error msg`) or
  yields the list of per-page `extract_text()` results, in page order.
* The Anthropic client is an oracle `ApiEnv`: constructing the client
  (`Anthropic(api_key=...)`) and the `messages.create` call may each raise,
  which the oracle models as `.error msg`.
* Rendered Streamlit widgets that the claims talk about are collected in a
  list of `UIItem`s; calls to `query_claude` made by the orchestrator are
  logged as `(document_text, question)` pairs.
-/

/-- Helper for `py_split_ws`: walk the characters, accumulating the current
word (reversed), emitting a word at each whitespace run boundary. -/
def split_ws_go : List Char → List Char → List String
  | [], acc => if acc.isEmpty then [] else [String.mk acc.reverse]
  | c :: cs, acc =>
    if c.isWhitespace then
      if acc.isEmpty then split_ws_go cs []
      else String.mk acc.reverse :: split_ws_go cs []
    else split_ws_go cs (c :: acc)

/-- Python `str.split()` with no argument: split on runs of whitespace,
discarding empty pieces (so leading/trailing whitespace contributes nothing). -/
def py_split_ws (s : String) : List String := split_ws_go s.data []

/-- Line 82 of `app.py`: `len(document_text.split())`. -/
def word_count (s : String) : Nat := (py_split_ws s).length

/-- Lines 21-25 of `app.py`: `os.getenv("ANTHROPIC_API_KEY")` followed by
`if env_key: return env_key` and the final `return None`. -/
def env_fallback (envVar : Option String) : Option String :=
  match envVar with
  | some k => if k = "" then none else some k
  | none => none

/-- Lines 11-25 of `app.py` (`get_api_key`): try the Streamlit secrets store;
a raised exception is swallowed (a debug line is written) and an empty value
is not returned; otherwise fall back to the environment variable. -/
def get_api_key (secrets : Except String String) (envVar : Option String) :
    Option String :=
  match secrets with
  | .ok apiKey => if apiKey = "" then env_fallback envVar else some apiKey
  | .error _ => env_fallback envVar

/-- Lines 27-33 of `app.py` (`extract_text_from_pdf`): start from `""` and,
for each page in order, append the page text and a newline. -/
def extract_text_from_pdf (pages : List String) : String :=
  pages.foldl (fun text page => text ++ page ++ "\n") ""

/-- A chat message as passed to `client.messages.create`. -/
structure Message where
  role : String
  content : String
  deriving Repr, DecidableEq

/-- The single request `query_claude` sends: model identifier, `max_tokens`,
and the message list. -/
structure Request where
  model : String
  max_tokens : Nat
  messages : List Message
  deriving Repr, DecidableEq

/-- One content segment of an API response (`response.content[i]`). -/
structure ContentBlock where
  text : String
  deriving Repr, DecidableEq

/-- An API response: a list of content segments. -/
structure Response where
  content : List ContentBlock
  deriving Repr, DecidableEq

/-- Oracle for the Anthropic client: `clientInit` models
`Anthropic(api_key=key)` (which may raise, e.g. when the key is `None`),
`send` models `client.messages.create` (which may raise on transport or
parsing failure). -/
structure ApiEnv where
  clientInit : Option String → Except String Unit
  send : Request → Except String Response

/-- Fixed text of the prompt before the document content (lines 40-43). -/
def prompt_head : String :=
  "Based on the following document content, please answer the question. If the answer cannot be found in the document, please say so.\n\nDocument content:\n"

/-- Fixed text of the prompt between document content and question (line 45). -/
def prompt_mid : String := "\n\nQuestion: "

/-- Fixed text of the prompt after the question (line 47). -/
def prompt_tail : String := "\n\nAnswer:"

/-- Lines 40-47 of `app.py`: the f-string prompt embedding the document text
and the question verbatim. -/
def build_prompt (document_text question : String) : String :=
  prompt_head ++ document_text ++ prompt_mid ++ question ++ prompt_tail

/-- Lines 49-53 of `app.py`: the argument record of the single
`client.messages.create` call. -/
def claude_request (document_text question : String) : Request :=
  { model := "claude-3-haiku-20240307"
    max_tokens := 1000
    messages := [{ role := "user", content := build_prompt document_text question }] }

/-- Lines 35-57 of `app.py` (`query_claude`). The whole body is inside
`try/except Exception`, so every failure (client construction, the outbound
call, or indexing `response.content[0]` on an empty list — Python message
`list index out of range`) becomes the string
`"Error querying Claude: " ++ msg`. The second component logs the requests
actually handed to the endpoint. -/
def query_claude (secrets : Except String String) (envVar : Option String)
    (api : ApiEnv) (document_text question : String) : String × List Request :=
  match api.clientInit (get_api_key secrets envVar) with
  | .error e => ("Error querying Claude: " ++ e, [])
  | .ok _ =>
    let req := claude_request document_text question
    match api.send req with
    | .error e => ("Error querying Claude: " ++ e, [req])
    | .ok resp =>
      match resp.content with
      | [] => ("Error querying Claude: " ++ "list index out of range", [req])
      | c :: _ => (c.text, [req])

/-- Streamlit session state (lines 63-67): extracted text and filename of the
most recently uploaded document; both start as `""`. -/
structure SessionState where
  document_text : String
  document_name : String
  deriving Repr, DecidableEq

/-- The value of `st.session_state` before any upload (lines 64-67). -/
def init_state : SessionState := { document_text := "", document_name := "" }

/-- An uploaded file: its `.name` and the outcome of reading it with
`PyPDF2.PdfReader` (a raised parse error, or the per-page texts). -/
structure UploadedFile where
  name : String
  pages : Except String (List String)

/-- The rendered widgets the claims talk about: the success box naming the
processed document (line 79), the stats info box with word and character
counts (line 84), the written answer (line 104), the
`"Please enter a question!"` warning (line 109), and the
`"Please upload a PDF document to start asking questions"` info box
(line 111). -/
inductive UIItem where
  | successBox : String → UIItem
  | statsBox : Nat → Nat → UIItem
  | answerBox : String → UIItem
  | warnBox : UIItem
  | uploadHint : UIItem
  deriving Repr, DecidableEq

/-- Outcome of one run of `main`: the session state afterwards, the rendered
widgets, and the `(document_text, question)` arguments of each call the
orchestrator made to `query_claude`. -/
structure MainResult where
  state : SessionState
  shown : List UIItem
  claude_calls : List (String × String)
  deriving Repr, DecidableEq

/-- Lines 90-111 of `app.py`: the question-and-answer section. Rendered only
when `st.session_state.document_text` is truthy; inside it, the button
handler checks `if question:` (Python truthiness, i.e. `question ≠ ""`). -/
def qa_section (s : SessionState) (shown : List UIItem) (ask_clicked : Bool)
    (question : String) (secrets : Except String String)
    (envVar : Option String) (api : ApiEnv) : MainResult :=
  if s.document_text = "" then
    { state := s, shown := shown ++ [UIItem.uploadHint], claude_calls := [] }
  else if ask_clicked then
    if question = "" then
      { state := s, shown := shown ++ [UIItem.warnBox], claude_calls := [] }
    else
      let r := query_claude secrets envVar api s.document_text question
      { state := s
        shown := shown ++ [UIItem.answerBox r.1]
        claude_calls := [(s.document_text, question)] }
  else { state := s, shown := shown, claude_calls := [] }

/-- Lines 59-111 of `app.py` (`main`), for one Streamlit rerun: process the
uploaded file (if any) — an extraction failure propagates uncaught, carrying
the unchanged session state in the error — then render the Q&A section.
On a successful upload both session-state fields are overwritten (lines
76-77) before the success box and the stats box are rendered. -/
def app_main (s0 : SessionState) (uploaded : Option UploadedFile)
    (ask_clicked : Bool) (question : String)
    (secrets : Except String String) (envVar : Option String) (api : ApiEnv) :
    Except (String × SessionState) MainResult :=
  match uploaded with
  | some f =>
    match f.pages with
    | .error e => .error (e, s0)
    | .ok ps =>
      let document_text := extract_text_from_pdf ps
      let s1 : SessionState :=
        { document_text := document_text, document_name := f.name }
      let shown1 :=
        [UIItem.successBox f.name,
         UIItem.statsBox (word_count document_text) document_text.length]
      .ok (qa_section s1 shown1 ask_clicked question secrets envVar api)
  | none => .ok (qa_section s0 [] ask_clicked question secrets envVar api)

/-- Outcome of the `__main__` guard: either the startup credential check
failed (`st.error` with the given message, then `st.stop()` — `main` is never
entered), or `main` ran with the given outcome. -/
inductive StartupResult where
  | halted : String → StartupResult
  | ran : Except (String × SessionState) MainResult → StartupResult

/-- Lines 113-119 of `app.py`: `if not get_api_key(): st.error(...);
st.stop()` — Python `not` is true for both `None` and `""` — else `main()`. -/
def run_startup (s0 : SessionState) (uploaded : Option UploadedFile)
    (ask_clicked : Bool) (question : String)
    (secrets : Except String String) (envVar : Option String) (api : ApiEnv) :
    StartupResult :=
  match get_api_key secrets envVar with
  | none =>
    .halted "❌ ANTHROPIC_API_KEY not found. Please set it in your .env file or Streamlit secrets"
  | some k =>
    if k = "" then
      .halted "❌ ANTHROPIC_API_KEY not found. Please set it in your .env file or Streamlit secrets"
    else .ran (app_main s0 uploaded ask_clicked question secrets envVar api)

/-- A well-behaved API oracle: client construction always succeeds and every
request is answered with a single content segment reading `"An answer."`. -/
def demo_api : ApiEnv :=
  { clientInit := fun _ => .ok ()
    send := fun _ => .ok { content := [{ text := "An answer." }] } }

/-- An API oracle whose transport always fails (a simulated network error
raised by `messages.create`). -/
def failing_send_api : ApiEnv :=
  { clientInit := fun _ => .ok ()
    send := fun _ => .error "Connection error." }

/-- An API oracle behaving like the real Anthropic client: constructing the
client raises when the api key is `None`, and requests otherwise succeed. -/
def anthropic_like_api : ApiEnv :=
  { clientInit := fun k =>
      match k with
      | none => .error "Could not resolve authentication method. Expected the api_key to be set."
      | some _ => .ok ()
    send := fun _ => .ok { content := [{ text := "An answer." }] } }

/-- Modelled from the spec words for the extractor output shape: the page
texts in page order, "each separated by exactly one newline". -/
def pages_newline_sep : List String → String
  | [] => ""
  | [p] => p
  | p :: q :: rest => p ++ "\n" ++ pages_newline_sep (q :: rest)

/-- Folding the page-append step starting from `acc` prepends `acc` to the
result of starting from the empty string. -/
theorem extract_go (ps : List String) (acc : String) :
    ps.foldl (fun text page => text ++ page ++ "\n") acc =
      acc ++ extract_text_from_pdf ps := by
  induction ps generalizing acc with
  | nil => simp [extract_text_from_pdf, String.append_empty]
  | cons p ps ih =>
    show List.foldl _ (acc ++ p ++ "\n") ps = acc ++ extract_text_from_pdf (p :: ps)
    rw [ih (acc ++ p ++ "\n")]
    show _ = acc ++ List.foldl _ ("" ++ p ++ "\n") ps
    rw [ih ("" ++ p ++ "\n")]
    simp [String.append_assoc, String.empty_append]

/-- Unfolding of `extract_text_from_pdf` on a nonempty page list. -/
theorem extract_cons (p : String) (ps : List String) :
    extract_text_from_pdf (p :: ps) = p ++ "\n" ++ extract_text_from_pdf ps := by
  show List.foldl _ ("" ++ p ++ "\n") ps = _
  rw [extract_go ps ("" ++ p ++ "\n")]
  simp [String.empty_append]

/-- A string other than `""` has positive length. -/
theorem length_pos_of_ne_empty (s : String) (h : ¬ s = "") : 0 < s.length := by
  obtain ⟨data⟩ := s
  cases data with
  | nil => exact absurd rfl h
  | cons c cs => simp [String.length]

/-- Appending strings concatenates their character data. -/
theorem mk_append (a b : List Char) :
    String.mk a ++ String.mk b = String.mk (a ++ b) := rfl

/-- C2 (counterexample). The spec scenario for a 2-page PDF extracting to
"Hello" and "World" states a displayed character count of 11, but the length
of the returned string "Hello\nWorld\n" is 12. -/
theorem two_page_char_count_is_twelve :
    (extract_text_from_pdf ["Hello", "World"]).length ≠ 11 ∧
    extract_text_from_pdf ["Hello", "World"] = "Hello\nWorld\n" ∧
    (extract_text_from_pdf ["Hello", "World"]).length = 12 := by decide

/-- C2 (amended). Uploading a 2-page PDF whose pages extract to "Hello" and
"World" yields extracted text "Hello\nWorld\n", a displayed word count of 2
and a displayed character count of 12. -/
theorem two_page_scenario_stats :
    extract_text_from_pdf ["Hello", "World"] = "Hello\nWorld\n" ∧
    app_main init_state (some { name := "doc.pdf", pages := .ok ["Hello", "World"] })
        false "" (.error "no secrets") (some "sk-key") demo_api =
      .ok { state := { document_text := "Hello\nWorld\n", document_name := "doc.pdf" }
            shown := [UIItem.successBox "doc.pdf", UIItem.statsBox 2 12]
            claude_calls := [] } :=
  ⟨by decide, rfl⟩

/-- C6. For every valid PDF, the extracted text is the page texts in page
order separated by exactly one newline, followed by a trailing newline; when
every page yields empty text the result consists only of newlines (one per
page). -/
theorem extract_joins_pages_with_newlines (pages : List String) :
    (pages ≠ [] →
      extract_text_from_pdf pages = pages_newline_sep pages ++ "\n") ∧
    ((∀ p ∈ pages, p = "") →
      extract_text_from_pdf pages = String.mk (List.replicate pages.length '\n')) := by
  constructor
  · induction pages with
    | nil => intro h; exact absurd rfl h
    | cons p ps ih =>
      intro _
      rw [extract_cons]
      cases ps with
      | nil =>
        simp [pages_newline_sep, extract_text_from_pdf, String.append_empty]
      | cons q qs =>
        rw [ih (by simp)]
        simp [pages_newline_sep, String.append_assoc]
  · induction pages with
    | nil => intro _; rfl
    | cons p ps ih =>
      intro h
      have hp : p = "" := h p (by simp)
      subst hp
      rw [extract_cons, ih (fun x hx => h x (List.mem_cons_of_mem _ hx))]
      have e1 : ("" : String) = String.mk [] := rfl
      have e2 : ("\n" : String) = String.mk ['\n'] := rfl
      rw [e1, e2, mk_append, mk_append]
      simp [List.replicate_succ]

/-- C6 (witness). Instances of the page-joining law: the two-page "Hello",
"World" document, and a two-page document whose pages are both empty. -/
theorem extract_joins_pages_with_newlines_witness :
    extract_text_from_pdf ["Hello", "World"] =
      pages_newline_sep ["Hello", "World"] ++ "\n" ∧
    extract_text_from_pdf ["", ""] = String.mk (List.replicate 2 '\n') :=
  ⟨(extract_joins_pages_with_newlines ["Hello", "World"]).1 (by decide),
   (extract_joins_pages_with_newlines ["", ""]).2 (by decide)⟩

/-- C9. `get_api_key` never returns the empty string: it yields `none` or a
key of positive length; an empty secrets value falls through to the
environment source, and an empty environment value is skipped (it behaves
like an unset variable). -/
theorem get_api_key_never_empty_string (secrets : Except String String)
    (envVar : Option String) :
    (get_api_key secrets envVar = none ∨
      ∃ k, get_api_key secrets envVar = some k ∧ 0 < k.length) ∧
    get_api_key (.ok "") envVar = env_fallback envVar ∧
    get_api_key secrets (some "") = get_api_key secrets none := by
  have hfb : ∀ ev, env_fallback ev = none ∨
      ∃ k, env_fallback ev = some k ∧ 0 < k.length := by
    intro ev
    cases ev with
    | none => exact Or.inl rfl
    | some k =>
      by_cases hk : k = ""
      · exact Or.inl (by simp [env_fallback, hk])
      · exact Or.inr ⟨k, by simp [env_fallback, hk], length_pos_of_ne_empty k hk⟩
  refine ⟨?_, by simp [get_api_key], ?_⟩
  · cases secrets with
    | error e => simpa [get_api_key] using hfb envVar
    | ok apiKey =>
      by_cases h : apiKey = ""
      · simpa [get_api_key, h] using hfb envVar
      · exact Or.inr ⟨apiKey, by simp [get_api_key, h], length_pos_of_ne_empty _ h⟩
  · cases secrets with
    | error e => simp [get_api_key, env_fallback]
    | ok apiKey => simp [get_api_key, env_fallback]

/-- C5. If the structured-secrets source raises or yields an absent/empty
value, `get_api_key` swallows the failure and resolves from the environment
variable source, returning the environment value whenever it is non-empty;
`get_api_key` is a total function, so it raises in no case. -/
theorem get_api_key_falls_back_to_env (secrets : Except String String)
    (envVar : Option String)
    (h : (∃ e, secrets = Except.error e) ∨ secrets = .ok "") :
    get_api_key secrets envVar = env_fallback envVar ∧
    (∀ k, envVar = some k → 0 < k.length →
      get_api_key secrets envVar = some k) := by
  have h1 : get_api_key secrets envVar = env_fallback envVar := by
    rcases h with ⟨e, rfl⟩ | rfl
    · rfl
    · simp [get_api_key]
  refine ⟨h1, ?_⟩
  intro k hk hpos
  subst hk
  rw [h1]
  have hne : ¬ k = "" := by
    intro hk0
    subst hk0
    exact absurd hpos (by decide)
  simp [env_fallback, hne]

/-- C5 (witness). With a raising secrets source and the environment variable
set to a non-empty key, resolution returns the environment value. -/
theorem get_api_key_falls_back_to_env_witness :
    get_api_key (.error "No secrets found") (some "sk-key") = some "sk-key" :=
  (get_api_key_falls_back_to_env (.error "No secrets found") (some "sk-key")
    (Or.inl ⟨"No secrets found", rfl⟩)).2 "sk-key" rfl (by decide)

/-- The question-and-answer section never modifies the session state. -/
theorem qa_section_state (s : SessionState) (shown : List UIItem)
    (ask_clicked : Bool) (question : String) (secrets : Except String String)
    (envVar : Option String) (api : ApiEnv) :
    (qa_section s shown ask_clicked question secrets envVar api).state = s := by
  unfold qa_section
  split
  · rfl
  · split
    · split
      · rfl
      · rfl
    · rfl

/-- The word count of the empty string is zero. -/
theorem word_count_empty : word_count "" = 0 := rfl

/-- The length of the empty string is zero. -/
theorem string_length_empty : ("" : String).length = 0 := rfl

/-- C1 (counterexample). A whitespace-only question (" ") is truthy in
Python, so the button handler does invoke `query_claude` with it — the call
log is nonempty — instead of surfacing the omission notice. -/
theorem whitespace_question_invokes_claude :
    (app_main { document_text := "The sky is blue.", document_name := "doc.pdf" }
        none true " " (.error "no secrets") (some "sk-key") demo_api).toOption.map
      MainResult.claude_calls = some [("The sky is blue.", " ")] ∧
    ¬ ([("The sky is blue.", " ")] : List (String × String)) = [] :=
  ⟨rfl, by decide⟩

/-- C1 (amended). For the empty question string, the "question asked" handler
never invokes `query_claude`, surfaces the omission warning, and leaves the
session state unchanged (whitespace-only non-empty questions, by contrast,
are passed to `query_claude`). -/
theorem empty_question_rejected_locally (s : SessionState)
    (secrets : Except String String) (envVar : Option String) (api : ApiEnv)
    (hdoc : ¬ s.document_text = "") :
    app_main s none true "" secrets envVar api =
      .ok { state := s, shown := [UIItem.warnBox], claude_calls := [] } := by
  simp [app_main, qa_section, hdoc]

/-- C1 (witness). Instance of the empty-question rejection with a loaded
document. -/
theorem empty_question_rejected_locally_witness :
    app_main { document_text := "The sky is blue.", document_name := "doc.pdf" }
        none true "" (.error "no secrets") (some "sk-key") demo_api =
      .ok { state := { document_text := "The sky is blue.", document_name := "doc.pdf" }
            shown := [UIItem.warnBox], claude_calls := [] } :=
  empty_question_rejected_locally
    { document_text := "The sky is blue.", document_name := "doc.pdf" }
    (.error "no secrets") (some "sk-key") demo_api (by decide)

/-- C3. `query_claude` is a total function (it never raises): a failure of
client construction, of the outbound call, or of indexing the first content
segment each produce the string "Error querying Claude: " followed by the
underlying message, and on success the result is the text of the first
content segment. -/
theorem query_claude_error_stringification (secrets : Except String String)
    (envVar : Option String) (api : ApiEnv) (document_text question : String) :
    (∀ e, api.clientInit (get_api_key secrets envVar) = .error e →
      (query_claude secrets envVar api document_text question).1 =
        "Error querying Claude: " ++ e) ∧
    (∀ e, api.clientInit (get_api_key secrets envVar) = .ok () →
      api.send (claude_request document_text question) = .error e →
      (query_claude secrets envVar api document_text question).1 =
        "Error querying Claude: " ++ e) ∧
    (∀ resp, api.clientInit (get_api_key secrets envVar) = .ok () →
      api.send (claude_request document_text question) = .ok resp →
      resp.content = [] →
      (query_claude secrets envVar api document_text question).1 =
        "Error querying Claude: " ++ "list index out of range") ∧
    (∀ resp c rest, api.clientInit (get_api_key secrets envVar) = .ok () →
      api.send (claude_request document_text question) = .ok resp →
      resp.content = c :: rest →
      (query_claude secrets envVar api document_text question).1 = c.text) := by
  refine ⟨?_, ?_, ?_, ?_⟩
  · intro e h
    simp [query_claude, h]
  · intro e h1 h2
    simp [query_claude, h1, h2]
  · intro resp h1 h2 h3
    simp [query_claude, h1, h2, h3]
  · intro resp c rest h1 h2 h3
    simp [query_claude, h1, h2, h3]

/-- C3 (witness). The spec scenario: a simulated transport failure turns
into the string "Error querying Claude: Connection error.". -/
theorem query_claude_error_stringification_witness :
    (query_claude (.error "no secrets") (some "sk-key") failing_send_api
        "The sky is blue." "What is this about?").1 =
      "Error querying Claude: " ++ "Connection error." :=
  (query_claude_error_stringification (.error "no secrets") (some "sk-key")
      failing_send_api "The sky is blue." "What is this about?").2.1
    "Connection error." rfl rfl

/-- C4. On a "document uploaded" event, `document_text` and `document_name`
are updated as a pair: on successful extraction both are overwritten with the
new document's values, independent of the previous state; if extraction
raises, the error propagates and the session state is left unchanged. -/
theorem upload_updates_name_and_text_as_pair (s0 : SessionState)
    (f : UploadedFile) (ask_clicked : Bool) (question : String)
    (secrets : Except String String) (envVar : Option String) (api : ApiEnv) :
    (∀ ps, f.pages = .ok ps →
      (app_main s0 (some f) ask_clicked question secrets envVar api).toOption.map
          (fun r => (r.state.document_text, r.state.document_name)) =
        some (extract_text_from_pdf ps, f.name)) ∧
    (∀ e, f.pages = .error e →
      app_main s0 (some f) ask_clicked question secrets envVar api =
        .error (e, s0)) := by
  constructor
  · intro ps h
    simp [app_main, h]
    refine ⟨_, rfl, ?_, ?_⟩ <;> rw [qa_section_state]
  · intro e h
    simp [app_main, h]

/-- C4 (witness). A failing extraction propagates its error and leaves the
initial session state untouched. -/
theorem upload_updates_name_and_text_as_pair_witness :
    app_main init_state
        (some { name := "bad.pdf", pages := .error "EOF marker not found" })
        false "" (.error "no secrets") (some "sk-key") demo_api =
      .error ("EOF marker not found", init_state) :=
  (upload_updates_name_and_text_as_pair init_state
      { name := "bad.pdf", pages := .error "EOF marker not found" }
      false "" (.error "no secrets") (some "sk-key") demo_api).2
    "EOF marker not found" rfl

/-- C7. If neither credential source yields a value, the `__main__` guard
halts: `app_main` is never entered and the operator-facing missing-credential
message is surfaced. -/
theorem startup_halts_without_credential (s0 : SessionState)
    (uploaded : Option UploadedFile) (ask_clicked : Bool) (question : String)
    (secrets : Except String String) (envVar : Option String) (api : ApiEnv)
    (h : get_api_key secrets envVar = none) :
    run_startup s0 uploaded ask_clicked question secrets envVar api =
      .halted "❌ ANTHROPIC_API_KEY not found. Please set it in your .env file or Streamlit secrets" := by
  simp [run_startup, h]

/-- C7 (witness). With a raising secrets source and no environment variable,
startup halts with the missing-credential message. -/
theorem startup_halts_without_credential_witness :
    run_startup init_state none false "" (.error "no secrets") none demo_api =
      .halted "❌ ANTHROPIC_API_KEY not found. Please set it in your .env file or Streamlit secrets" :=
  startup_halts_without_credential init_state none false "" (.error "no secrets")
    none demo_api rfl

/-- C8 (counterexample). When client construction fails (here: the Anthropic
constructor raising because the resolved key is `None`), the invocation of
`query_claude` issues zero requests to the endpoint, not exactly one. -/
theorem query_claude_zero_requests_on_init_failure :
    (query_claude (.error "no secrets") none anthropic_like_api
        "The sky is blue." "What is this about?").2.length ≠ 1 ∧
    (query_claude (.error "no secrets") none anthropic_like_api
        "The sky is blue." "What is this about?").2 = [] := by decide

/-- C8 (amended). Every invocation of `query_claude` in which client
construction succeeds issues exactly one request, carrying the fixed model
identifier "claude-3-haiku-20240307", `max_tokens` 1000, and a single user
message embedding the document text and the question verbatim between fixed
prompt fragments; on success the result is the first content segment's text. -/
theorem query_claude_single_request_shape (secrets : Except String String)
    (envVar : Option String) (api : ApiEnv) (document_text question : String)
    (hinit : api.clientInit (get_api_key secrets envVar) = .ok ()) :
    (query_claude secrets envVar api document_text question).2 =
      [claude_request document_text question] ∧
    (claude_request document_text question).model = "claude-3-haiku-20240307" ∧
    (claude_request document_text question).max_tokens = 1000 ∧
    (claude_request document_text question).messages =
      [{ role := "user", content := build_prompt document_text question }] ∧
    build_prompt document_text question =
      prompt_head ++ (document_text ++ (prompt_mid ++ (question ++ prompt_tail))) ∧
    (∀ resp c rest, api.send (claude_request document_text question) = .ok resp →
      resp.content = c :: rest →
      (query_claude secrets envVar api document_text question).1 = c.text) := by
  refine ⟨?_, rfl, rfl, rfl, ?_, ?_⟩
  · cases hs : api.send (claude_request document_text question) with
    | error e => simp [query_claude, hinit, hs]
    | ok resp =>
      cases hc : resp.content with
      | nil => simp [query_claude, hinit, hs, hc]
      | cons c rest => simp [query_claude, hinit, hs, hc]
  · simp [build_prompt, String.append_assoc]
  · intro resp c rest h1 h2
    simp [query_claude, hinit, h1, h2]

/-- C8 (witness). With a succeeding client, the request log holds exactly the
fixed-shape request and the demo response's first segment text is returned. -/
theorem query_claude_single_request_shape_witness :
    (query_claude (.error "no secrets") (some "sk-key") demo_api
        "The sky is blue." "What is this about?").2 =
      [claude_request "The sky is blue." "What is this about?"] ∧
    (query_claude (.error "no secrets") (some "sk-key") demo_api
        "The sky is blue." "What is this about?").1 = "An answer." :=
  ⟨(query_claude_single_request_shape (.error "no secrets") (some "sk-key")
      demo_api "The sky is blue." "What is this about?" rfl).1,
   (query_claude_single_request_shape (.error "no secrets") (some "sk-key")
      demo_api "The sky is blue." "What is this about?" rfl).2.2.2.2.2
     { content := [{ text := "An answer." }] } { text := "An answer." } []
     rfl rfl⟩

/-- C10. When the session's `document_text` is empty, the question interface
is not rendered and `query_claude` is unreachable (the upload hint is shown
instead); an upload whose extraction yields the empty string still reports
success and shows zero stats, yet leaves the session behaving as if no
document were loaded. -/
theorem empty_document_text_disables_qa (s0 : SessionState)
    (f : UploadedFile) (ask_clicked : Bool) (question : String)
    (secrets : Except String String) (envVar : Option String) (api : ApiEnv) :
    (s0.document_text = "" →
      app_main s0 none ask_clicked question secrets envVar api =
        .ok { state := s0, shown := [UIItem.uploadHint], claude_calls := [] }) ∧
    (∀ ps, f.pages = .ok ps → extract_text_from_pdf ps = "" →
      app_main s0 (some f) ask_clicked question secrets envVar api =
        .ok { state := { document_text := "", document_name := f.name }
              shown := [UIItem.successBox f.name, UIItem.statsBox 0 0,
                        UIItem.uploadHint]
              claude_calls := [] }) := by
  constructor
  · intro h
    simp [app_main, qa_section, h]
  · intro ps h1 h2
    simp [app_main, h1, h2, qa_section, word_count_empty, string_length_empty]

/-- C10 (witness). Uploading a zero-page PDF reports success with zero stats
but leaves the question interface unrendered even with a question pending. -/
theorem empty_document_text_disables_qa_witness :
    app_main init_state (some { name := "empty.pdf", pages := .ok [] })
        true "What is this about?" (.error "no secrets") (some "sk-key")
        demo_api =
      .ok { state := { document_text := "", document_name := "empty.pdf" }
            shown := [UIItem.successBox "empty.pdf", UIItem.statsBox 0 0,
                      UIItem.uploadHint]
            claude_calls := [] } :=
  (empty_document_text_disables_qa init_state
      { name := "empty.pdf", pages := .ok [] } true "What is this about?"
      (.error "no secrets") (some "sk-key") demo_api).2 [] rfl rfl
